import Mathlib

/-!
Shallow embedding of the o9 Action Button generator service
(`src/routes/codeGeneration.js` and its variants) together with proofs
about its claims.  String-processing helpers model the JavaScript string
builtins the routes use (`split`, `parseInt`, `Number`, template
rendering, `toLowerCase`, `replace` with character-class regexes) on the
ASCII fragment the routes exercise; the route handlers are modelled as
pure functions from an environment (database contents and the outcomes
of the remote calls) to an HTTP response, a trace of downstream effects,
and the post-state of the document store.
-/

/-- JS whitespace test on a character, by code point (space, tab, LF, VT, FF, CR). -/
def isJsSpace (c : Char) : Bool :=
  decide (c.toNat = 32 ∨ c.toNat = 9 ∨ c.toNat = 10 ∨ c.toNat = 11 ∨ c.toNat = 12 ∨ c.toNat = 13)

/-- Decimal digit test on a character, by code point. -/
def isDigitChar (c : Char) : Bool :=
  decide (48 ≤ c.toNat ∧ c.toNat ≤ 57)

/-- The longest run of decimal digits at the front of a character list. -/
def leadingDigits (cs : List Char) : List Char :=
  cs.takeWhile isDigitChar

/-- Value of a list of decimal digits, most significant first. -/
def decVal (cs : List Char) : Nat :=
  cs.foldl (fun n c => n * 10 + (c.toNat - 48)) 0

/-- JS `parseInt(s)` modelled for decimal inputs: skip leading whitespace,
an optional sign, then the longest run of decimal digits; `none` is `NaN`.
(The `0x` radix-16 autodetection of `parseInt` is not modelled; no version
string in this development reaches it, as `x` stops a decimal digit run.) -/
def jsParseInt (s : String) : Option Int :=
  match s.data.dropWhile isJsSpace with
  | [] => none
  | c :: rest =>
    if c.toNat = 45 then
      match leadingDigits rest with
      | [] => none
      | ds => some (-(decVal ds : Int))
    else if c.toNat = 43 then
      match leadingDigits rest with
      | [] => none
      | ds => some ((decVal ds : Int))
    else
      match leadingDigits (c :: rest) with
      | [] => none
      | ds => some ((decVal ds : Int))

/-- JS `Number(s)` modelled for integer decimal numerals: trim whitespace,
empty string is `0`, otherwise an optional sign followed by digits only;
`none` is `NaN`.  (Fractional, exponent, and `0x` literals are not
modelled; no version string in this development uses them.) -/
def jsNumber (s : String) : Option Int :=
  let cs := ((s.data.dropWhile isJsSpace).reverse.dropWhile isJsSpace).reverse
  match cs with
  | [] => some 0
  | c :: rest =>
    if c.toNat = 45 then
      if rest ≠ [] ∧ rest.all isDigitChar then some (-(decVal rest : Int)) else none
    else if c.toNat = 43 then
      if rest ≠ [] ∧ rest.all isDigitChar then some ((decVal rest : Int)) else none
    else
      if (c :: rest).all isDigitChar then some ((decVal (c :: rest) : Int)) else none

/-- Rendering of a JS number in a template literal: an integer prints as in
Lean, `NaN` prints as the string `NaN`. -/
def jsNumToString : Option Int → String
  | some n => toString n
  | none => "NaN"

/-- Rendering of a possibly-undefined string in a JS template literal. -/
def jsStrOr : Option String → String
  | some s => s
  | none => "undefined"

/-- Accumulator-style worker for `jsSplit`. -/
def splitAux (sep : Char) : List Char → List Char → List (List Char)
  | [], acc => [acc.reverse]
  | c :: cs, acc =>
    if c = sep then acc.reverse :: splitAux sep cs []
    else splitAux sep cs (c :: acc)

/-- JS `s.split(sep)` for a one-character separator: always at least one
piece, empty pieces kept (so `"".split('.') = [""]` and `"1.".split('.') =
["1", ""]`). -/
def jsSplit (sep : Char) (s : String) : List String :=
  (splitAux sep s.data []).map (fun l => ⟨l⟩)

/-- `incrementVersion` from `src/routes/codeGeneration.js` lines 394-398:
`parts = version.split('.')`, `patch = parseInt(parts[2] || 0) + 1`, and the
template `` `${parts[0]}.${parts[1]}.${patch}` ``.  A missing or empty third
part falls back to `parseInt(0) = 0`; a missing first or second part renders
as `undefined`; a `NaN` patch renders as `NaN`. -/
def incrementVersion (version : String) : String :=
  let parts := jsSplit '.' version
  let thirdPart : Option String :=
    match parts[2]? with
    | some s => if s = "" then none else some s
    | none => none
  let patchNum : Option Int :=
    match thirdPart with
    | some s => jsParseInt s
    | none => some 0
  let patch : Option Int := patchNum.map (· + 1)
  jsStrOr parts[0]? ++ "." ++ jsStrOr parts[1]? ++ "." ++ jsNumToString patch

/-- `incrementVersion` from the drop-in route variant
(`src/unnamed/part_002` lines 315-321): all three components go through
JS `Number` with falsy fallbacks (`parts[0] || 1`, `parts[1] || 0`,
`parts[2] || 0`), the patch gets `+ 1`, and the template renders the three
numbers. -/
def incrementVersionDropin (version : String) : String :=
  let parts := jsSplit '.' version
  let comp : Nat → Int → Option Int := fun i dflt =>
    match parts[i]? with
    | some s => if s = "" then some dflt else jsNumber s
    | none => some dflt
  let major := comp 0 1
  let minor := comp 1 0
  let patch := (comp 2 0).map (· + 1)
  jsNumToString major ++ "." ++ jsNumToString minor ++ "." ++ jsNumToString patch

/-- ASCII lowercasing of one character, as JS `toLowerCase` acts on the
ASCII range (the only range the `[^a-z0-9]` strip can keep). -/
def jsLowerChar (c : Char) : Char :=
  if 65 ≤ c.toNat ∧ c.toNat ≤ 90 then Char.ofNat (c.toNat + 32) else c

/-- Membership in `[a-z0-9]`, the class kept by the `projectId` regex. -/
def isLowerAlnumChar (c : Char) : Bool :=
  decide ((97 ≤ c.toNat ∧ c.toNat ≤ 122) ∨ (48 ≤ c.toNat ∧ c.toNat ≤ 57))

/-- `projectId` derivation from `src/routes/codeGeneration.js` line 123:
`projectName.toLowerCase().replace(/[^a-z0-9]/g, '')`. -/
def deriveProjectId (projectName : String) : String :=
  ⟨(projectName.data.map jsLowerChar).filter isLowerAlnumChar⟩

/-- Modelled from the spec's words for the refinement check of the
`projectId` claim: "lowercase the string, then remove every character
outside [a-z0-9]". -/
def projectIdSpec (projectName : String) : String :=
  let lowered := projectName.data.map jsLowerChar
  let kept := lowered.filter (fun c => isLowerAlnumChar c)
  String.mk kept

/-- Membership in `[a-zA-Z0-9]`, the class kept by the download-filename
regex of the primary route. -/
def isAsciiAlnumChar (c : Char) : Bool :=
  decide ((48 ≤ c.toNat ∧ c.toNat ≤ 57) ∨ (65 ≤ c.toNat ∧ c.toNat ≤ 90) ∨
    (97 ≤ c.toNat ∧ c.toNat ≤ 122))

/-- Download filename from `src/routes/codeGeneration.js` line 272:
`` `${resource.projectName.replace(/[^a-zA-Z0-9]/g, '')}.js` ``. -/
def downloadFileName (projectName : String) : String :=
  (⟨projectName.data.filter isAsciiAlnumChar⟩ : String) ++ ".js"

/-- The `safe` helper of the drop-in download route (`src/unnamed/part_002`
line 300): strip every character outside `[a-zA-Z0-9_-]`, then keep the
first 50 characters. -/
def safeDropin (s : String) : String :=
  ⟨(s.data.filter (fun c => isAsciiAlnumChar c || c.toNat = 95 || c.toNat = 45)).take 50⟩

/-- Download filename of the drop-in route (`src/unnamed/part_002` line
301): the sanitized project name, or `generated` when it sanitizes to the
empty string, plus the `.js` extension. -/
def downloadFileNameDropin (projectName : String) : String :=
  (if safeDropin projectName = "" then "generated" else safeDropin projectName) ++ ".js"

/-- One entry of a field binding's `fields` list. -/
structure BindingField where
  name : String
  dataType : String
  classification : String
  required : Bool
  description : String
deriving Repr, DecidableEq

/-- A `FieldBinding` document of the `fieldBindings` container (partition
key `/actionButtonType`). -/
structure FieldBinding where
  id : String
  name : String
  actionButtonType : String
  description : String
  fields : List BindingField
  createdAt : String
  updatedAt : String
  isActive : Bool
deriving Repr, DecidableEq

/-- A knowledge-base metadata document (the blob content lives separately
under `filePath`). -/
structure ExampleMeta where
  id : String
  type : String
  category : String
  actionButtonType : String
  fileName : String
  filePath : String
  fileType : String
  description : String
  uploadedAt : String
deriving Repr, DecidableEq

/-- The `{fileName, description}` pair kept in a generated-code record's
`examples` list. -/
structure ExampleRef where
  fileName : String
  description : String
deriving Repr, DecidableEq

/-- A downloaded example: metadata plus the blob's text content. -/
structure ExampleCode where
  fileName : String
  content : String
  description : String
deriving Repr, DecidableEq

/-- A `GeneratedCodeRecord` document of the `generatedCode` container
(partition key `/projectId`).  `additionalRequirements` is carried as an
optional property: the primary route never sets it, the third route variant
stores the request's value. -/
structure GeneratedCodeRecord where
  id : String
  projectId : String
  projectName : String
  actionButtonType : String
  businessLogic : String
  fieldBindingId : String
  fieldBinding : FieldBinding
  generatedCode : String
  examples : List ExampleRef
  additionalRequirements : Option String := none
  generatedAt : String
  version : String
  status : String
deriving Repr, DecidableEq

/-- The document store's contents: the three containers the generation
routes touch, plus the blob container as a path-to-content map. -/
structure Store where
  fieldBindings : List FieldBinding
  knowledgeBase : List ExampleMeta
  blobs : List (String × String)
  generatedCode : List GeneratedCodeRecord
deriving Repr, DecidableEq

/-- One downstream call of a route handler, in issue order. -/
inductive Effect where
  | bindingRead : Effect
  | bindingQuery : Effect
  | kbQuery : Effect
  | blobFetch : String → Effect
  | recordRead : Effect
  | completionCall : Effect
  | dbCreate : GeneratedCodeRecord → Effect
  | dbReplace : GeneratedCodeRecord → Effect
deriving Repr, DecidableEq

/-- Whether an effect writes to the document store. -/
def Effect.isWrite : Effect → Bool
  | .dbCreate _ => true
  | .dbReplace _ => true
  | _ => false

/-- Body of `POST /generate`: each field is absent (`none`) or a string. -/
structure GenRequest where
  projectName : Option String
  actionButtonType : Option String
  businessLogic : Option String
  fieldBindingId : Option String
  additionalRequirements : Option String := none
deriving Repr, DecidableEq

/-- Body of `POST /generate/{id}/regenerate`. -/
structure RegenRequest where
  modifications : Option String
  projectId : Option String
deriving Repr, DecidableEq

/-- JS falsiness of an optional string field: absent (`undefined`) and the
empty string are falsy, every other string is truthy. -/
def isFalsy : Option String → Bool
  | none => true
  | some s => s = ""

/-- The environment of one request: the store's contents plus the outcomes
of the remote calls (whether the knowledge-base query succeeds, each blob
download's outcome, and the completion call's outcome — `Except.error ()`
a transport failure, otherwise the returned `choices` contents). -/
structure Env where
  store : Store
  knowledgeOk : Bool
  blobResult : String → Except Unit String
  completion : Except Unit (List String)
  newId : String
  now : String

/-- The JSON body fields of a route response that the claims mention. -/
structure ApiResponse where
  status : Nat
  codeId : Option String := none
  usedExamples : Option Nat := none
  version : Option String := none
deriving Repr, DecidableEq

/-- A handler's result: the HTTP response, the downstream calls it issued
in order, and the document store afterwards. -/
structure HandlerOutcome where
  response : ApiResponse
  effects : List Effect
  finalStore : Store
deriving Repr, DecidableEq

/-- Cosmos point read `containers.fieldBindings.item(id, actionButtonType)
.read()`: the document with that id in that partition, `none` when the
read throws (miss or wrong partition key). -/
def directRead (store : Store) (fid abt : String) : Option FieldBinding :=
  store.fieldBindings.find? (fun b => b.id == fid && b.actionButtonType == abt)

/-- Binding resolution of the primary route (`src/routes/codeGeneration.js`
lines 28-45) with its effect trace: a direct keyed read, then on failure
the fallback query `SELECT * FROM c WHERE c.id = @id` taking the first
result. -/
def resolveBindingWithEffects (store : Store) (fid abt : String) :
    Option FieldBinding × List Effect :=
  match directRead store fid abt with
  | some b => (some b, [Effect.bindingRead])
  | none =>
    ((store.fieldBindings.filter (fun b => b.id == fid)).head?,
     [Effect.bindingRead, Effect.bindingQuery])

/-- The primary route's binding resolver, result only. -/
def resolveBinding (store : Store) (fid abt : String) : Option FieldBinding :=
  (resolveBindingWithEffects store fid abt).1

/-- Binding resolution of the drop-in variant (`src/unnamed/part_002`
lines 65-89): the same direct read, but the fallback query matches on
`c.id = @id AND c.actionButtonType = @pk`. -/
def resolveBindingDropin (store : Store) (fid abt : String) : Option FieldBinding :=
  match directRead store fid abt with
  | some b => some b
  | none =>
    (store.fieldBindings.filter (fun b => b.id == fid && b.actionButtonType == abt)).head?

/-- Descending insertion by `uploadedAt` (Cosmos `ORDER BY c.uploadedAt
DESC` on the lexicographic timestamp strings). -/
def insertByUploadedAt (x : ExampleMeta) : List ExampleMeta → List ExampleMeta
  | [] => [x]
  | y :: ys =>
    if y.uploadedAt ≤ x.uploadedAt then x :: y :: ys else y :: insertByUploadedAt x ys

/-- Sort knowledge-base entries newest first. -/
def sortByUploadedAtDesc : List ExampleMeta → List ExampleMeta
  | [] => []
  | x :: xs => insertByUploadedAt x (sortByUploadedAtDesc xs)

/-- The knowledge-base metadata query of the generation routes: entries
with `type = "knowledge"`, the request's `actionButtonType`, and
`fileType = "application/javascript"`, newest first. -/
def kbMatches (store : Store) (abt : String) : List ExampleMeta :=
  sortByUploadedAtDesc (store.knowledgeBase.filter (fun m =>
    m.type == "knowledge" && m.actionButtonType == abt &&
    m.fileType == "application/javascript"))

/-- The per-example download loop: each blob fetch is an effect; a failed
download is logged and skipped, a successful one contributes an
`ExampleCode`. -/
def fetchExamples (blob : String → Except Unit String) :
    List ExampleMeta → List ExampleCode × List Effect
  | [] => ([], [])
  | m :: rest =>
    let tail := fetchExamples blob rest
    match blob m.filePath with
    | .ok content =>
      (⟨m.fileName, content, m.description⟩ :: tail.1, Effect.blobFetch m.filePath :: tail.2)
    | .error _ => (tail.1, Effect.blobFetch m.filePath :: tail.2)

/-- `POST /generate` of the primary route (`src/routes/codeGeneration.js`
lines 9-153): validate the four required fields by JS falsiness; resolve
the binding with the query fallback; query the knowledge base and download
the top three examples, each failure degrading to fewer examples and a
failed metadata query to none; call the completion service (a transport
failure or an empty `choices` list aborts with 500); and only then create
the record and answer 200 with `usedExamples`. -/
def handleGenerate (env : Env) (req : GenRequest) : HandlerOutcome :=
  if isFalsy req.projectName || isFalsy req.actionButtonType ||
     isFalsy req.businessLogic || isFalsy req.fieldBindingId then
    ⟨{ status := 400 }, [], env.store⟩
  else
    let projectName := req.projectName.getD ""
    let abt := req.actionButtonType.getD ""
    let businessLogic := req.businessLogic.getD ""
    let fid := req.fieldBindingId.getD ""
    let resolved := resolveBindingWithEffects env.store fid abt
    match resolved.1 with
    | none => ⟨{ status := 404 }, resolved.2, env.store⟩
    | some fieldBinding =>
      let kbPhase : List ExampleCode × List Effect :=
        if env.knowledgeOk then
          let found := kbMatches env.store abt
          let dl := fetchExamples env.blobResult (found.take 3)
          (dl.1, Effect.kbQuery :: dl.2)
        else ([], [Effect.kbQuery])
      let exampleCodes := kbPhase.1
      match env.completion with
      | .error _ =>
        ⟨{ status := 500 }, resolved.2 ++ kbPhase.2 ++ [Effect.completionCall], env.store⟩
      | .ok [] =>
        ⟨{ status := 500 }, resolved.2 ++ kbPhase.2 ++ [Effect.completionCall], env.store⟩
      | .ok (code :: _) =>
        let codeRecord : GeneratedCodeRecord :=
          { id := env.newId
            projectId := deriveProjectId projectName
            projectName := projectName
            actionButtonType := abt
            businessLogic := businessLogic
            fieldBindingId := fid
            fieldBinding := fieldBinding
            generatedCode := code
            examples := exampleCodes.map (fun e => ⟨e.fileName, e.description⟩)
            generatedAt := env.now
            version := "1.0.0"
            status := "generated" }
        ⟨{ status := 200, codeId := some codeRecord.id,
           usedExamples := some exampleCodes.length },
         resolved.2 ++ kbPhase.2 ++ [Effect.completionCall, Effect.dbCreate codeRecord],
         { env.store with generatedCode := env.store.generatedCode ++ [codeRecord] }⟩

/-- `POST /generate` of the third route variant
(`src/routes/codeGeneration.js` lines 590-762).  Its `exampleCodes` is
declared with `let` inside the `try` block, so after the block only the
`var exampleCodes` hoisted out of the `catch` is visible: when the
knowledge-base query succeeds the value used downstream is `undefined`
(modelled `none`; the downloads still ran inside the block), and
`generateActionButtonCode` throws a `TypeError` on `examples.length`
before the completion call, so the request ends 500.  Only when the
metadata query fails does the `catch` define `exampleCodes = []` and the
pipeline proceed. -/
def handleGenerateV3 (env : Env) (req : GenRequest) : HandlerOutcome :=
  if isFalsy req.projectName || isFalsy req.actionButtonType ||
     isFalsy req.businessLogic || isFalsy req.fieldBindingId then
    ⟨{ status := 400 }, [], env.store⟩
  else
    let projectName := req.projectName.getD ""
    let abt := req.actionButtonType.getD ""
    let businessLogic := req.businessLogic.getD ""
    let fid := req.fieldBindingId.getD ""
    let resolved := resolveBindingWithEffects env.store fid abt
    match resolved.1 with
    | none => ⟨{ status := 404 }, resolved.2, env.store⟩
    | some fieldBinding =>
      let kbPhase : Option (List ExampleCode) × List Effect :=
        if env.knowledgeOk then
          let found := kbMatches env.store abt
          let dl := fetchExamples env.blobResult (found.take 3)
          (none, Effect.kbQuery :: dl.2)
        else (some [], [Effect.kbQuery])
      match kbPhase.1 with
      | none =>
        ⟨{ status := 500 }, resolved.2 ++ kbPhase.2, env.store⟩
      | some exampleCodes =>
        match env.completion with
        | .error _ =>
          ⟨{ status := 500 }, resolved.2 ++ kbPhase.2 ++ [Effect.completionCall], env.store⟩
        | .ok [] =>
          ⟨{ status := 500 }, resolved.2 ++ kbPhase.2 ++ [Effect.completionCall], env.store⟩
        | .ok (code :: _) =>
          let codeRecord : GeneratedCodeRecord :=
            { id := env.newId
              projectId := deriveProjectId projectName
              projectName := projectName
              actionButtonType := abt
              businessLogic := businessLogic
              fieldBindingId := fid
              fieldBinding := fieldBinding
              generatedCode := code
              examples := exampleCodes.map (fun e => ⟨e.fileName, e.description⟩)
              additionalRequirements := req.additionalRequirements
              generatedAt := env.now
              version := "1.0.0"
              status := "generated" }
          ⟨{ status := 200, codeId := some codeRecord.id,
             usedExamples := some exampleCodes.length },
           resolved.2 ++ kbPhase.2 ++ [Effect.completionCall, Effect.dbCreate codeRecord],
           { env.store with generatedCode := env.store.generatedCode ++ [codeRecord] }⟩

/-- The replacement record the regenerate route builds
(`src/routes/codeGeneration.js` lines 232-239): spread the existing record
and overwrite `generatedCode`, `businessLogic`, `generatedAt`, `version`
(patch-incremented) and `status`. -/
def updatedRecord (existing : GeneratedCodeRecord)
    (regeneratedCode modifiedBusinessLogic now : String) : GeneratedCodeRecord :=
  { existing with
    generatedCode := regeneratedCode
    businessLogic := modifiedBusinessLogic
    generatedAt := now
    version := incrementVersion existing.version
    status := "regenerated" }

/-- `POST /generate/{id}/regenerate` of the primary route
(`src/routes/codeGeneration.js` lines 204-254): require `projectId`, read
the record at `(id, projectId)`, append the modification request to the
stored business logic, regenerate with the existing binding snapshot and
no examples, and only on generation success replace the record in place. -/
def handleRegenerate (env : Env) (id : String) (req : RegenRequest) : HandlerOutcome :=
  if isFalsy req.projectId then
    ⟨{ status := 400 }, [], env.store⟩
  else
    let pid := req.projectId.getD ""
    match env.store.generatedCode.find? (fun r => r.id == id && r.projectId == pid) with
    | none => ⟨{ status := 404 }, [Effect.recordRead], env.store⟩
    | some existing =>
      let modifiedBusinessLogic :=
        existing.businessLogic ++ "\n\nADDITIONAL MODIFICATIONS:\n" ++ jsStrOr req.modifications
      match env.completion with
      | .error _ =>
        ⟨{ status := 500 }, [Effect.recordRead, Effect.completionCall], env.store⟩
      | .ok [] =>
        ⟨{ status := 500 }, [Effect.recordRead, Effect.completionCall], env.store⟩
      | .ok (code :: _) =>
        let updated := updatedRecord existing code modifiedBusinessLogic env.now
        ⟨{ status := 200, codeId := some updated.id, version := some updated.version },
         [Effect.recordRead, Effect.completionCall, Effect.dbReplace updated],
         { env.store with generatedCode := env.store.generatedCode.map (fun r =>
             if r.id == id && r.projectId == pid then updated else r) }⟩

/-- The response surface of `GET /generate/{id}/download` that the claims
mention. -/
structure DownloadResponse where
  status : Nat
  contentDisposition : Option String := none
  body : Option String := none
deriving Repr, DecidableEq

/-- `GET /generate/{id}/download` of the primary route
(`src/routes/codeGeneration.js` lines 257-285): require `projectId`, read
the record, and answer with the sanitized filename in
`Content-Disposition`. -/
def handleDownload (store : Store) (id : String) (projectId : Option String) :
    DownloadResponse :=
  if isFalsy projectId then { status := 400 }
  else
    match store.generatedCode.find? (fun r => r.id == id && r.projectId == projectId.getD "") with
    | none => { status := 404 }
    | some r =>
      { status := 200
        contentDisposition :=
          some ("attachment; filename=\"" ++ downloadFileName r.projectName ++ "\"")
        body := some r.generatedCode }

/-- `GET /generate/{id}/download` of the drop-in variant
(`src/unnamed/part_002` lines 291-312), whose filename also keeps `_` and
`-` and caps the base name at 50 characters. -/
def handleDownloadDropin (store : Store) (id : String) (projectId : Option String) :
    DownloadResponse :=
  if isFalsy projectId then { status := 400 }
  else
    match store.generatedCode.find? (fun r => r.id == id && r.projectId == projectId.getD "") with
    | none => { status := 404 }
    | some r =>
      { status := 200
        contentDisposition :=
          some ("attachment; filename=\"" ++ downloadFileNameDropin r.projectName ++ "\"")
        body := some r.generatedCode }

/-- A concrete field binding used by the witness scenarios. -/
def bindingW : FieldBinding :=
  { id := "fb1", name := "Demand Binding", actionButtonType := "typeA",
    description := "demo", fields := [⟨"SKU", "array", "dimension", true, ""⟩,
      ⟨"Price", "number", "measure", true, ""⟩],
    createdAt := "2024-01-01", updatedAt := "2024-01-01", isActive := true }

/-- A concrete knowledge-base entry used by the witness scenarios. -/
def metaW : ExampleMeta :=
  { id := "kb1", type := "knowledge", category := "general",
    actionButtonType := "typeA", fileName := "example1.js",
    filePath := "knowledge/example1.js", fileType := "application/javascript",
    description := "", uploadedAt := "2024-02-01" }

/-- A store with one binding and an empty knowledge base. -/
def storeNoKb : Store :=
  { fieldBindings := [bindingW], knowledgeBase := [], blobs := [], generatedCode := [] }

/-- A store with one binding and one knowledge-base entry whose blob is
missing. -/
def storeOneKb : Store :=
  { fieldBindings := [bindingW], knowledgeBase := [metaW], blobs := [], generatedCode := [] }

/-- A valid generation request against `bindingW`. -/
def reqW : GenRequest :=
  { projectName := some "My Project! 2", actionButtonType := some "typeA",
    businessLogic := some "increase price by 10 percent", fieldBindingId := some "fb1" }

/-- The same request with its `projectName` absent. -/
def reqMissing : GenRequest :=
  { projectName := none, actionButtonType := some "typeA",
    businessLogic := some "increase price by 10 percent", fieldBindingId := some "fb1" }

/-- Environment where the knowledge-base metadata query itself fails. -/
def envKbFail : Env :=
  { store := storeNoKb, knowledgeOk := false, blobResult := fun _ => Except.error (),
    completion := Except.ok ["generated-code"], newId := "id-1", now := "t-1" }

/-- Environment where the metadata query succeeds but matches nothing. -/
def envKbEmpty : Env :=
  { store := storeNoKb, knowledgeOk := true, blobResult := fun _ => Except.error (),
    completion := Except.ok ["generated-code"], newId := "id-1", now := "t-1" }

/-- Environment with one matching knowledge-base entry whose blob download
fails. -/
def envKbBlobFail : Env :=
  { store := storeOneKb, knowledgeOk := true, blobResult := fun _ => Except.error (),
    completion := Except.ok ["generated-code"], newId := "id-1", now := "t-1" }

/-- Environment whose completion call fails in transport. -/
def envComplErr : Env :=
  { store := storeNoKb, knowledgeOk := true, blobResult := fun _ => Except.error (),
    completion := Except.error (), newId := "id-1", now := "t-1" }

/-- A stored generated-code record used by the witness scenarios. -/
def recW : GeneratedCodeRecord :=
  { id := "r1", projectId := "myproject2", projectName := "My Project! 2",
    actionButtonType := "typeA", businessLogic := "increase price by 10 percent",
    fieldBindingId := "fb1", fieldBinding := bindingW, generatedCode := "old-code",
    examples := [⟨"example1.js", ""⟩], generatedAt := "t-0", version := "1.0.0",
    status := "generated" }

/-- A stored record whose project name contains an underscore. -/
def recUnderscore : GeneratedCodeRecord :=
  { recW with id := "r2", projectId := "ab", projectName := "a_b" }

/-- A store holding `recUnderscore`, for the download counterexample. -/
def storeDl : Store :=
  { fieldBindings := [], knowledgeBase := [], blobs := [], generatedCode := [recUnderscore] }

/-- A regeneration request used by the witness scenarios. -/
def rregW : RegenRequest :=
  { modifications := some "also round to integers", projectId := some "myproject2" }

/-- Everything a `filter` keeps satisfies the filtering predicate. -/
theorem all_of_filter {α : Type} (p : α → Bool) (l : List α) :
    (l.filter p).all p = true := by
  rw [List.all_eq_true]
  intro x hx
  exact (List.mem_filter.mp hx).2

/-- A character of the `[a-z0-9]` class is fixed by ASCII lowercasing. -/
theorem jsLowerChar_fixed (c : Char) (h : isLowerAlnumChar c = true) :
    jsLowerChar c = c := by
  unfold isLowerAlnumChar at h
  rw [decide_eq_true_eq] at h
  unfold jsLowerChar
  rw [if_neg]
  omega

/-- Lowercase-then-strip is the identity on lists all of whose characters
already lie in `[a-z0-9]`. -/
theorem lowerStrip_fixed (l : List Char) (h : ∀ c ∈ l, isLowerAlnumChar c = true) :
    (l.map jsLowerChar).filter isLowerAlnumChar = l := by
  induction l with
  | nil => rfl
  | cons c t ih =>
    have hc := h c (List.mem_cons_self c t)
    have ht := ih (fun x hx => h x (List.mem_cons_of_mem c hx))
    simp only [List.map_cons, List.filter_cons, jsLowerChar_fixed c hc, hc, if_pos, ht]

/-- C7: the `projectId` derivation implemented at
`src/routes/codeGeneration.js` line 123 is a pure function of
`projectName` (a Lean function, hence deterministic) and coincides with
the spec's description "lowercase the string, then remove every character
outside [a-z0-9]"; on `"My Project! 2"` it yields `"myproject2"`. -/
theorem projectId_matches_spec :
    (∀ s : String, deriveProjectId s = projectIdSpec s) ∧
    deriveProjectId "My Project! 2" = "myproject2" := by
  constructor
  · intro s
    rfl
  · decide

/-- C9: the `projectId` derivation is idempotent: deriving from its own
output returns the output unchanged. -/
theorem projectId_idempotent :
    ∀ s : String, deriveProjectId (deriveProjectId s) = deriveProjectId s := by
  intro s
  unfold deriveProjectId
  apply congrArg String.mk
  apply lowerStrip_fixed
  intro c hc
  exact (List.mem_filter.mp hc).2

/-- C8 (amended): the primary download route's `Content-Disposition`
filename is an all-alphanumeric base plus the fixed `.js` extension; the
drop-in variant's base keeps only characters of `[a-zA-Z0-9_-]` (so it
also admits underscore and hyphen); in both, path characters are stripped,
and a stored `"../../etc"` project name downloads as `"etc.js"`. -/
theorem download_filename_sanitized :
    (∀ (store : Store) (id : String) (pid : Option String),
      (handleDownload store id pid).contentDisposition = none ∨
      ∃ base : String,
        (handleDownload store id pid).contentDisposition =
          some ("attachment; filename=\"" ++ (base ++ ".js") ++ "\"") ∧
        base.data.all isAsciiAlnumChar = true) ∧
    (∀ pn : String,
      (safeDropin pn).data.all
        (fun c => isAsciiAlnumChar c || c.toNat = 95 || c.toNat = 45) = true) ∧
    downloadFileName "../../etc" = "etc.js" ∧
    downloadFileNameDropin "../../etc" = "etc.js" := by
  refine ⟨?_, ?_, by decide, by decide⟩
  · intro store id pid
    unfold handleDownload
    split
    · exact Or.inl rfl
    · split
      · exact Or.inl rfl
      · rename_i r _
        refine Or.inr ⟨⟨r.projectName.data.filter isAsciiAlnumChar⟩, rfl, ?_⟩
        exact all_of_filter _ _
  · intro pn
    show ((pn.data.filter _).take 50).all _ = true
    rw [List.all_eq_true]
    intro c hc
    exact (List.mem_filter.mp (List.take_subset _ _ hc)).2

/-- C8 counterexample: in the drop-in download route the stored project
name `"a_b"` produces the filename `"a_b.js"`, whose base contains the
non-alphanumeric character `_`. -/
theorem download_filename_dropin_cex :
    (handleDownloadDropin storeDl "r2" (some "ab")).contentDisposition =
      some "attachment; filename=\"a_b.js\"" ∧
    (safeDropin "a_b").data.all isAsciiAlnumChar = false := by
  decide

/-- C3 (amended): the primary route's binding resolver
(`src/routes/codeGeneration.js` lines 28-50) falls back to a query on id
alone, so whenever any stored binding carries the requested id the
resolver returns a binding with that id, whatever type hint the caller
supplied. -/
theorem binding_fallback_resolves_by_id (store : Store) (fid abt : String)
    (h : ∃ b ∈ store.fieldBindings, b.id = fid) :
    ∃ b2 : FieldBinding, resolveBinding store fid abt = some b2 ∧ b2.id = fid := by
  obtain ⟨b, hb, hid⟩ := h
  unfold resolveBinding resolveBindingWithEffects
  cases hdr : directRead store fid abt with
  | some b3 =>
    refine ⟨b3, by simp, ?_⟩
    have := List.find?_some hdr
    simp only [Bool.and_eq_true, beq_iff_eq] at this
    exact this.1
  | none =>
    have hmem : b ∈ store.fieldBindings.filter (fun b => b.id == fid) :=
      List.mem_filter.mpr ⟨hb, by simp [hid]⟩
    cases hl : store.fieldBindings.filter (fun b => b.id == fid) with
    | nil =>
      rw [hl] at hmem
      cases hmem
    | cons x xs =>
      refine ⟨x, by simp [hl], ?_⟩
      have hx : x ∈ store.fieldBindings.filter (fun b => b.id == fid) := by
        rw [hl]
        exact List.mem_cons_self x xs
      simpa using (List.mem_filter.mp hx).2

/-- C3 witness: the store holds a binding with id `fb1` of type `typeA`;
with the wrong type hint `typeB` the primary resolver still returns a
binding with id `fb1`. -/
theorem binding_fallback_resolves_by_id_witness :
    (∃ b ∈ storeNoKb.fieldBindings, b.id = "fb1") ∧
    ∃ b2 : FieldBinding, resolveBinding storeNoKb "fb1" "typeB" = some b2 ∧ b2.id = "fb1" :=
  ⟨by decide, binding_fallback_resolves_by_id storeNoKb "fb1" "typeB" (by decide)⟩

/-- C3 counterexample: the drop-in variant's fallback query also filters
on `actionButtonType`, so the same store and wrong type hint resolve to
nothing although a binding with the requested id exists. -/
theorem binding_fallback_dropin_cex :
    resolveBindingDropin storeNoKb "fb1" "typeB" = none ∧
    (∃ b ∈ storeNoKb.fieldBindings, b.id = "fb1") := by
  decide

/-- String concatenation concatenates the underlying character lists. -/
theorem strData_append (s t : String) : (s ++ t).data = s.data ++ t.data := rfl

/-- `splitAux` passes over a separator-free chunk followed by a separator,
emitting the accumulated piece. -/
theorem splitAux_sep_mid (sep : Char) (l1 l2 acc : List Char) (h : sep ∉ l1) :
    splitAux sep (l1 ++ sep :: l2) acc = (acc.reverse ++ l1) :: splitAux sep l2 [] := by
  induction l1 generalizing acc with
  | nil => simp [splitAux]
  | cons c t ih =>
    have hcs : ¬ c = sep := fun hc => h (hc ▸ List.mem_cons_self c t)
    have ht : sep ∉ t := fun hm => h (List.mem_cons_of_mem c hm)
    simp only [List.cons_append, splitAux, if_neg hcs, List.append_eq]
    rw [ih (c :: acc) ht]
    simp

/-- `splitAux` on a separator-free list yields one piece. -/
theorem splitAux_no_sep (sep : Char) (l acc : List Char) (h : sep ∉ l) :
    splitAux sep l acc = [acc.reverse ++ l] := by
  induction l generalizing acc with
  | nil => simp [splitAux]
  | cons c t ih =>
    have hcs : ¬ c = sep := fun hc => h (hc ▸ List.mem_cons_self c t)
    have ht : sep ∉ t := fun hm => h (List.mem_cons_of_mem c hm)
    simp only [splitAux, if_neg hcs, List.append_eq]
    rw [ih (c :: acc) ht]
    simp

/-- Splitting `a ++ "." ++ b ++ "." ++ c` at dots recovers the three
dot-free components. -/
theorem jsSplit_three (a b c : String)
    (ha : ('.' : Char) ∉ a.data) (hb : ('.' : Char) ∉ b.data)
    (hc : ('.' : Char) ∉ c.data) :
    jsSplit '.' (a ++ "." ++ b ++ "." ++ c) = [a, b, c] := by
  have hdata : (a ++ "." ++ b ++ "." ++ c).data =
      a.data ++ ('.' : Char) :: (b.data ++ ('.' : Char) :: c.data) := by
    rw [strData_append, strData_append, strData_append, strData_append]
    simp [List.append_assoc]
  unfold jsSplit
  rw [hdata, splitAux_sep_mid '.' a.data _ [] ha, splitAux_sep_mid '.' b.data _ [] hb,
    splitAux_no_sep '.' c.data [] hc]
  simp

/-- A list of decimal digits is untouched by `takeWhile isDigitChar`. -/
theorem leadingDigits_all (l : List Char) (h : ∀ x ∈ l, isDigitChar x = true) :
    leadingDigits l = l := by
  unfold leadingDigits
  induction l with
  | nil => rfl
  | cons c t ih =>
    rw [List.takeWhile_cons, if_pos (h c (List.mem_cons_self c t)),
      ih (fun x hx => h x (List.mem_cons_of_mem c hx))]

/-- `parseInt` on a nonempty all-digit string is its decimal value. -/
theorem jsParseInt_digits (c : String) (h1 : c.data ≠ [])
    (h2 : ∀ ch ∈ c.data, isDigitChar ch = true) :
    jsParseInt c = some ((decVal c.data : Int)) := by
  obtain ⟨d, t, hct⟩ : ∃ d t, c.data = d :: t := by
    cases hc : c.data with
    | nil => exact absurd hc h1
    | cons d t => exact ⟨d, t, rfl⟩
  have hd : isDigitChar d = true := h2 d (hct ▸ List.mem_cons_self d t)
  have hdn : 48 ≤ d.toNat ∧ d.toNat ≤ 57 := by
    unfold isDigitChar at hd
    exact of_decide_eq_true hd
  have hspace : isJsSpace d = false := by
    unfold isJsSpace
    rw [decide_eq_false_iff_not]
    omega
  unfold jsParseInt
  rw [hct, List.dropWhile_cons, if_neg (by simp [hspace])]
  have h45 : ¬ d.toNat = 45 := by omega
  have h43 : ¬ d.toNat = 43 := by omega
  simp only [if_neg h45, if_neg h43]
  rw [leadingDigits_all (d :: t) (fun x hx => h2 x (hct ▸ hx))]

/-- The primary `incrementVersion` on a well-formed `a.b.c` version with a
numeric patch component: the first two components pass through verbatim
and the patch is incremented arithmetically. -/
theorem incrementVersion_formula (a b c : String)
    (ha : ('.' : Char) ∉ a.data) (hb : ('.' : Char) ∉ b.data)
    (hc : c.data ≠ []) (hcd : ∀ ch ∈ c.data, isDigitChar ch = true) :
    incrementVersion (a ++ "." ++ b ++ "." ++ c) =
      a ++ "." ++ b ++ "." ++ toString ((decVal c.data : Int) + 1) := by
  have hcdot : ('.' : Char) ∉ c.data := by
    intro hm
    exact absurd (hcd _ hm) (by decide)
  have hcne : ¬ c = "" := fun he => hc (by rw [he])
  unfold incrementVersion
  rw [jsSplit_three a b c ha hb hcdot]
  simp only [List.getElem?_cons_zero, List.getElem?_cons_succ, if_neg hcne]
  simp [jsParseInt_digits c hc hcd, jsStrOr, jsNumToString]

/-- C6 (amended): the primary `incrementVersion` treats the patch as an
integer — for every version `a.b.c` with dot-free `a`, `b` and a decimal
numeral `c`, the result is `a.b.` followed by `c + 1` computed
arithmetically; the drop-in variant also increments arithmetically and
agrees on canonical versions (`1.2.9 ↦ 1.2.10`, `1.0.0 ↦ 1.0.1`), though
it renders `a` and `b` through numeric normalization. -/
theorem incrementVersion_integer_patch (a b c : String)
    (ha : ('.' : Char) ∉ a.data) (hb : ('.' : Char) ∉ b.data)
    (hc : c.data ≠ []) (hcd : ∀ ch ∈ c.data, isDigitChar ch = true) :
    incrementVersion (a ++ "." ++ b ++ "." ++ c) =
      a ++ "." ++ b ++ "." ++ toString ((decVal c.data : Int) + 1) ∧
    incrementVersion "1.2.9" = "1.2.10" ∧
    incrementVersion "1.0.0" = "1.0.1" ∧
    incrementVersionDropin "1.2.9" = "1.2.10" ∧
    incrementVersionDropin "1.0.0" = "1.0.1" :=
  ⟨incrementVersion_formula a b c ha hb hc hcd, by decide, by decide, by decide, by decide⟩

/-- C6 witness: the formula applied at the concrete version `1.2.9`. -/
theorem incrementVersion_integer_patch_witness :
    (('.' : Char) ∉ "1".data) ∧ (('.' : Char) ∉ "2".data) ∧
    ("9".data ≠ []) ∧ (∀ ch ∈ "9".data, isDigitChar ch = true) ∧
    (incrementVersion ("1" ++ "." ++ "2" ++ "." ++ "9") =
       "1" ++ "." ++ "2" ++ "." ++ toString ((decVal "9".data : Int) + 1) ∧
     incrementVersion "1.2.9" = "1.2.10" ∧
     incrementVersion "1.0.0" = "1.0.1" ∧
     incrementVersionDropin "1.2.9" = "1.2.10" ∧
     incrementVersionDropin "1.0.0" = "1.0.1") :=
  ⟨by decide, by decide, by decide, by decide,
   incrementVersion_integer_patch "1" "2" "9" (by decide) (by decide) (by decide) (by decide)⟩

/-- C6 counterexample: the drop-in `incrementVersion` normalizes the major
component through JS `Number`, so on the version `01.2.3` — whose third
component is the decimal numeral `3` — it answers `1.2.4`, not the
`01.2.4` the claim's `a.b.(c+1)` template demands. -/
theorem incrementVersion_dropin_cex :
    incrementVersionDropin "01.2.3" = "1.2.4" ∧ ("1.2.4" : String) ≠ "01.2.4" := by
  decide

/-- C5: the regenerate route's replacement record overwrites exactly
`generatedCode`, `businessLogic`, `generatedAt`, `version` (incrementing
only the patch component) and `status` (which becomes `regenerated`),
preserving `id`, `projectId`, `projectName`, `actionButtonType`,
`fieldBindingId`, the original `fieldBinding` snapshot and the `examples`
list. -/
theorem regenerate_frame (existing : GeneratedCodeRecord)
    (code logic now : String) (a b c : String)
    (hv : existing.version = a ++ "." ++ b ++ "." ++ c)
    (ha : ('.' : Char) ∉ a.data) (hb : ('.' : Char) ∉ b.data)
    (hc : c.data ≠ []) (hcd : ∀ ch ∈ c.data, isDigitChar ch = true) :
    (updatedRecord existing code logic now).id = existing.id ∧
    (updatedRecord existing code logic now).projectId = existing.projectId ∧
    (updatedRecord existing code logic now).projectName = existing.projectName ∧
    (updatedRecord existing code logic now).actionButtonType = existing.actionButtonType ∧
    (updatedRecord existing code logic now).fieldBindingId = existing.fieldBindingId ∧
    (updatedRecord existing code logic now).fieldBinding = existing.fieldBinding ∧
    (updatedRecord existing code logic now).examples = existing.examples ∧
    (updatedRecord existing code logic now).generatedCode = code ∧
    (updatedRecord existing code logic now).businessLogic = logic ∧
    (updatedRecord existing code logic now).generatedAt = now ∧
    (updatedRecord existing code logic now).status = "regenerated" ∧
    (updatedRecord existing code logic now).version =
      a ++ "." ++ b ++ "." ++ toString ((decVal c.data : Int) + 1) := by
  refine ⟨rfl, rfl, rfl, rfl, rfl, rfl, rfl, rfl, rfl, rfl, rfl, ?_⟩
  show incrementVersion existing.version = _
  rw [hv]
  exact incrementVersion_formula a b c ha hb hc hcd

/-- C5 witness: the frame property applied to the concrete stored record
`recW`, whose version `1.0.0` becomes `1.0.1`. -/
theorem regenerate_frame_witness :
    (recW.version = "1" ++ "." ++ "0" ++ "." ++ "0") ∧
    (('.' : Char) ∉ "1".data) ∧ (('.' : Char) ∉ "0".data) ∧
    ("0".data ≠ []) ∧ (∀ ch ∈ "0".data, isDigitChar ch = true) ∧
    ((updatedRecord recW "new-code" "new-logic" "t-1").id = recW.id ∧
     (updatedRecord recW "new-code" "new-logic" "t-1").projectId = recW.projectId ∧
     (updatedRecord recW "new-code" "new-logic" "t-1").projectName = recW.projectName ∧
     (updatedRecord recW "new-code" "new-logic" "t-1").actionButtonType = recW.actionButtonType ∧
     (updatedRecord recW "new-code" "new-logic" "t-1").fieldBindingId = recW.fieldBindingId ∧
     (updatedRecord recW "new-code" "new-logic" "t-1").fieldBinding = recW.fieldBinding ∧
     (updatedRecord recW "new-code" "new-logic" "t-1").examples = recW.examples ∧
     (updatedRecord recW "new-code" "new-logic" "t-1").generatedCode = "new-code" ∧
     (updatedRecord recW "new-code" "new-logic" "t-1").businessLogic = "new-logic" ∧
     (updatedRecord recW "new-code" "new-logic" "t-1").generatedAt = "t-1" ∧
     (updatedRecord recW "new-code" "new-logic" "t-1").status = "regenerated" ∧
     (updatedRecord recW "new-code" "new-logic" "t-1").version =
       "1" ++ "." ++ "0" ++ "." ++ toString ((decVal "0".data : Int) + 1)) :=
  ⟨by decide, by decide, by decide, by decide, by decide,
   regenerate_frame recW "new-code" "new-logic" "t-1" "1" "0" "0"
     (by decide) (by decide) (by decide) (by decide) (by decide)⟩

/-- C1: a `POST /generate` body with any required field missing (or
JS-falsy) is rejected with 400 before any downstream call: the effect
trace is empty and the store is untouched. -/
theorem generate_missing_field_no_calls (env : Env) (req : GenRequest)
    (h : isFalsy req.projectName = true ∨ isFalsy req.actionButtonType = true ∨
         isFalsy req.businessLogic = true ∨ isFalsy req.fieldBindingId = true) :
    (handleGenerate env req).response.status = 400 ∧
    (handleGenerate env req).effects = [] ∧
    (handleGenerate env req).finalStore = env.store := by
  have hcond : (isFalsy req.projectName || isFalsy req.actionButtonType ||
      isFalsy req.businessLogic || isFalsy req.fieldBindingId) = true := by
    rcases h with h | h | h | h <;> simp [h]
  refine ⟨?_, ?_, ?_⟩ <;> simp [handleGenerate, hcond]

/-- C1 witness: the concrete request with `projectName` absent is turned
away with 400, no effects, and an unchanged store. -/
theorem generate_missing_field_no_calls_witness :
    (isFalsy reqMissing.projectName = true ∨ isFalsy reqMissing.actionButtonType = true ∨
     isFalsy reqMissing.businessLogic = true ∨ isFalsy reqMissing.fieldBindingId = true) ∧
    ((handleGenerate envKbEmpty reqMissing).response.status = 400 ∧
     (handleGenerate envKbEmpty reqMissing).effects = [] ∧
     (handleGenerate envKbEmpty reqMissing).finalStore = envKbEmpty.store) :=
  ⟨Or.inl rfl, generate_missing_field_no_calls envKbEmpty reqMissing (Or.inl rfl)⟩

/-- C10: the required-field check uses JS falsiness, so a field present
but equal to the empty string is handled exactly like an absent field:
the whole outcome coincides, the status is 400, and no downstream call is
made. -/
theorem empty_string_field_like_missing (env : Env) (req : GenRequest) :
    (handleGenerate env { req with projectName := some "" } =
       handleGenerate env { req with projectName := none } ∧
     (handleGenerate env { req with projectName := some "" }).response.status = 400 ∧
     (handleGenerate env { req with projectName := some "" }).effects = []) ∧
    (handleGenerate env { req with actionButtonType := some "" } =
       handleGenerate env { req with actionButtonType := none } ∧
     (handleGenerate env { req with actionButtonType := some "" }).response.status = 400 ∧
     (handleGenerate env { req with actionButtonType := some "" }).effects = []) ∧
    (handleGenerate env { req with businessLogic := some "" } =
       handleGenerate env { req with businessLogic := none } ∧
     (handleGenerate env { req with businessLogic := some "" }).response.status = 400 ∧
     (handleGenerate env { req with businessLogic := some "" }).effects = []) ∧
    (handleGenerate env { req with fieldBindingId := some "" } =
       handleGenerate env { req with fieldBindingId := none } ∧
     (handleGenerate env { req with fieldBindingId := some "" }).response.status = 400 ∧
     (handleGenerate env { req with fieldBindingId := some "" }).effects = []) := by
  refine ⟨⟨?_, ?_, ?_⟩, ⟨?_, ?_, ?_⟩, ⟨?_, ?_, ?_⟩, ⟨?_, ?_, ?_⟩⟩ <;>
    simp [handleGenerate, isFalsy]

/-- The download loop issues only blob fetches, never writes. -/
theorem fetchExamples_no_write (blob : String → Except Unit String)
    (l : List ExampleMeta) :
    ∀ x ∈ (fetchExamples blob l).2, x.isWrite = false := by
  induction l with
  | nil =>
    intro x hx
    cases hx
  | cons m t ih =>
    intro x hx
    unfold fetchExamples at hx
    cases hb : blob m.filePath with
    | ok v =>
      simp only [hb, List.mem_cons] at hx
      rcases hx with rfl | hx
      · rfl
      · exact ih x hx
    | error e =>
      simp only [hb, List.mem_cons] at hx
      rcases hx with rfl | hx
      · rfl
      · exact ih x hx

/-- Binding resolution issues only reads and queries, never writes. -/
theorem resolveBinding_no_write (store : Store) (fid abt : String) :
    ∀ x ∈ (resolveBindingWithEffects store fid abt).2, x.isWrite = false := by
  intro x hx
  unfold resolveBindingWithEffects at hx
  cases hdr : directRead store fid abt with
  | some b =>
    simp only [hdr, List.mem_singleton] at hx
    subst hx
    rfl
  | none =>
    simp only [hdr, List.mem_cons, List.mem_singleton, List.not_mem_nil, or_false] at hx
    rcases hx with rfl | rfl <;> rfl

/-- C2: when the completion call fails — transport error or an empty
`choices` list — neither `POST /generate` nor
`POST /generate/{id}/regenerate` writes to the document store: the effect
trace holds no create and no replace, and the stored records are
unchanged. -/
theorem generation_failure_no_write (env : Env) (req : GenRequest)
    (id : String) (rreq : RegenRequest)
    (h : env.completion = Except.error () ∨ env.completion = Except.ok []) :
    ((∀ e ∈ (handleGenerate env req).effects, e.isWrite = false) ∧
     (handleGenerate env req).finalStore.generatedCode = env.store.generatedCode) ∧
    ((∀ e ∈ (handleRegenerate env id rreq).effects, e.isWrite = false) ∧
     (handleRegenerate env id rreq).finalStore.generatedCode = env.store.generatedCode) := by
  have hgen : (∀ e ∈ (handleGenerate env req).effects, e.isWrite = false) ∧
      (handleGenerate env req).finalStore.generatedCode = env.store.generatedCode := by
    by_cases hval : (isFalsy req.projectName || isFalsy req.actionButtonType ||
        isFalsy req.businessLogic || isFalsy req.fieldBindingId) = true
    · constructor
      · intro e he
        simp [handleGenerate, hval] at he
      · simp [handleGenerate, hval]
    · cases hres : (resolveBindingWithEffects env.store (req.fieldBindingId.getD "")
          (req.actionButtonType.getD "")).1 with
      | none =>
        constructor
        · intro e he
          simp [handleGenerate, hval, hres] at he
          exact resolveBinding_no_write _ _ _ e he
        · simp [handleGenerate, hval, hres]
      | some fb =>
        cases hk : env.knowledgeOk with
        | true =>
          rcases h with h | h <;>
          · constructor
            · intro e he
              simp [handleGenerate, hval, hres, hk, h] at he
              rcases he with he | rfl | he | rfl
              · exact resolveBinding_no_write _ _ _ e he
              · rfl
              · exact fetchExamples_no_write _ _ e he
              · rfl
            · simp [handleGenerate, hval, hres, hk, h]
        | false =>
          rcases h with h | h <;>
          · constructor
            · intro e he
              simp [handleGenerate, hval, hres, hk, h] at he
              rcases he with he | rfl | rfl
              · exact resolveBinding_no_write _ _ _ e he
              · rfl
              · rfl
            · simp [handleGenerate, hval, hres, hk, h]
  have hreg : (∀ e ∈ (handleRegenerate env id rreq).effects, e.isWrite = false) ∧
      (handleRegenerate env id rreq).finalStore.generatedCode = env.store.generatedCode := by
    by_cases hval : isFalsy rreq.projectId = true
    · constructor
      · intro e he
        simp [handleRegenerate, hval] at he
      · simp [handleRegenerate, hval]
    · cases hfind : env.store.generatedCode.find? (fun r =>
          r.id == id && r.projectId == rreq.projectId.getD "") with
      | none =>
        constructor
        · intro e he
          simp [handleRegenerate, hval, hfind] at he
          subst he
          rfl
        · simp [handleRegenerate, hval, hfind]
      | some ex =>
        rcases h with h | h <;>
        · constructor
          · intro e he
            simp [handleRegenerate, hval, hfind, h] at he
            rcases he with rfl | rfl <;> rfl
          · simp [handleRegenerate, hval, hfind, h]
  exact ⟨hgen, hreg⟩

/-- C2 witness: under a transport-failing completion, the concrete
generate and regenerate requests leave the store's records untouched and
issue no write effect. -/
theorem generation_failure_no_write_witness :
    (envComplErr.completion = Except.error () ∨ envComplErr.completion = Except.ok []) ∧
    (((∀ e ∈ (handleGenerate envComplErr reqW).effects, e.isWrite = false) ∧
      (handleGenerate envComplErr reqW).finalStore.generatedCode =
        envComplErr.store.generatedCode) ∧
     ((∀ e ∈ (handleRegenerate envComplErr "r1" rregW).effects, e.isWrite = false) ∧
      (handleRegenerate envComplErr "r1" rregW).finalStore.generatedCode =
        envComplErr.store.generatedCode)) :=
  ⟨Or.inl rfl, generation_failure_no_write envComplErr reqW "r1" rregW (Or.inl rfl)⟩

/-- C4: example retrieval degrades, it never fails the pipeline in the
primary route — a failed metadata query, zero matches, or a failed blob
download all still end in 200 with `usedExamples = 0` — while the third
route variant's `exampleCodes` scoping slip makes the very same
zero-match and failed-download requests crash with 500 (and no write),
although its metadata-query-failure path does answer 200. -/
theorem example_retrieval_degrades :
    ((handleGenerate envKbFail reqW).response.status = 200 ∧
     (handleGenerate envKbFail reqW).response.usedExamples = some 0) ∧
    ((handleGenerate envKbEmpty reqW).response.status = 200 ∧
     (handleGenerate envKbEmpty reqW).response.usedExamples = some 0) ∧
    ((handleGenerate envKbBlobFail reqW).response.status = 200 ∧
     (handleGenerate envKbBlobFail reqW).response.usedExamples = some 0) ∧
    ((handleGenerateV3 envKbEmpty reqW).response.status = 500 ∧
     (handleGenerateV3 envKbEmpty reqW).effects.all (fun e => !e.isWrite) = true ∧
     (handleGenerateV3 envKbBlobFail reqW).response.status = 500 ∧
     (handleGenerateV3 envKbFail reqW).response.status = 200 ∧
     (handleGenerateV3 envKbFail reqW).response.usedExamples = some 0) := by
  decide
